import Mathlib

/-!
Verification of the gpumon telemetry core against its specification.

This file gives a shallow embedding, in Lean 4, of the parts of the gpumon
repository that the testable properties of the specification talk about:

* `src/gpumon/_plot.py` — the bounded metric series (`DataPlot`, a deque with
  a `maxlen`), its formatter / upper-bound setters, and `memory_formatter`;
* `src/gpumon/_workers.py` — the failure-counting policy of the polling workers
  (`poll_cpu_percent`, `poll_memory_percent`), the dmon stdout consumer
  (`consume_stdout` inside `poll_dmon_stats`), the one-shot probe
  (`subprocess_communicate`), the process-table refresh
  (`update_process_list`), and the scope-exit behaviour of
  `subprocess_lifespan`;
* `src/gpumon/__init__.py` — the alternate `GPUPlot` widget.

Python floats are modelled as rationals (every numeric literal exercised below
is exactly representable in binary floating point), machine-level timestamps
(`datetime.now`) are omitted from the series model, and UI side effects
(`log.write`, `refresh`) are modelled only where a claim counts them
(the loud-warning counter of the dmon consumer).
-/

/-! ### Python string primitives

The workers operate on decoded text lines.  We model the handful of Python
`str` operations they use, working over the character list of a `String`.
-/

/-- Model of Python `str.strip()`: drop whitespace from both ends. -/
def stripChars (cs : List Char) : List Char :=
  ((cs.dropWhile Char.isWhitespace).reverse.dropWhile Char.isWhitespace).reverse

/-- Model of Python `str.strip()` on a `String`. -/
def pyStrip (s : String) : String :=
  ⟨stripChars s.data⟩

/-- Model of Python `str.startswith("#")`: the first character is `'#'`. -/
def startsWithHash (s : String) : Bool :=
  match s.data with
  | [] => false
  | c :: _ => c = '#'

/-- Helper splitting a character list into maximal whitespace-free words. -/
def wsWords : List Char → List Char → List (List Char)
  | [], acc => if acc.isEmpty then [] else [acc.reverse]
  | c :: cs, acc =>
    if c.isWhitespace then
      if acc.isEmpty then wsWords cs [] else acc.reverse :: wsWords cs []
    else wsWords cs (c :: acc)

/-- Model of Python `re.split(pattern=r"\s+", string=s)` for a string `s`
that carries no leading or trailing whitespace (the source always strips the
decoded line first): the empty string maps to `[""]`, any other stripped
string to its whitespace-separated words. -/
def reSplitWs (s : String) : List String :=
  if s.data.isEmpty then [""] else (wsWords s.data []).map fun cs => ⟨cs⟩

/-- Split a character list at every occurrence of `sep` (keeping empties),
modelling Python `str.split(sep)` for a one-character separator. -/
def splitOnChar (sep : Char) : List Char → List (List Char)
  | [] => [[]]
  | c :: cs =>
    let rest := splitOnChar sep cs
    if c = sep then [] :: rest
    else
      match rest with
      | [] => [[c]]
      | r :: rs => (c :: r) :: rs

/-- Model of Python `line.split(",")`. -/
def splitComma (s : String) : List String :=
  (splitOnChar ',' s.data).map fun cs => ⟨cs⟩

/-- Model of Python `str.splitlines()` for `"\n"`-separated text: split at
newlines and drop the trailing empty piece produced by a trailing newline. -/
def pySplitlines (s : String) : List String :=
  let ps := splitOnChar '\n' s.data
  let ps := if ps.getLast? = some [] then ps.dropLast else ps
  ps.map fun cs => ⟨cs⟩

/-- Whether `pat` is a prefix of `l` (on character lists). -/
def isPrefixL : List Char → List Char → Bool
  | [], _ => true
  | _ :: _, [] => false
  | a :: as, b :: bs => a = b && isPrefixL as bs

/-- Whether `pat` occurs as a contiguous substring of `l`. -/
def occursIn (pat : List Char) : List Char → Bool
  | [] => pat.isEmpty
  | c :: cs => isPrefixL pat (c :: cs) || occursIn pat cs

/-- Model of Python `pat in s` (substring containment). -/
def containsSub (s pat : String) : Bool :=
  occursIn pat.data s.data

/-! ### Python numeric conversions

`consume_stdout` applies `float(...)` and `int(...)` to whitespace-separated
fields.  We model those conversions on the decimal literal forms that the
dmon feed emits (optional sign, digits, optional fractional part); values are
rationals.
-/

/-- Numeric value of a decimal digit character. -/
def digitVal (c : Char) : Nat :=
  c.toNat - '0'.toNat

/-- Value of a digit string read in base 10 (empty list gives 0). -/
def natVal (cs : List Char) : Nat :=
  cs.foldl (fun a c => a * 10 + digitVal c) 0

/-- All characters are decimal digits. -/
def allDigits (cs : List Char) : Bool :=
  cs.all Char.isDigit

/-- Model of Python `int(s)`: strip, optional sign, nonempty digit run;
anything else raises `ValueError`, modelled as `none`. -/
def pyIntChars (cs0 : List Char) : Option Int :=
  match stripChars cs0 with
  | '-' :: rest =>
    if !rest.isEmpty && allDigits rest then some (-(natVal rest : Int)) else none
  | '+' :: rest =>
    if !rest.isEmpty && allDigits rest then some ((natVal rest : Int)) else none
  | rest =>
    if !rest.isEmpty && allDigits rest then some ((natVal rest : Int)) else none

/-- Model of Python `int(s)` on a `String`. -/
def pyInt (s : String) : Option Int :=
  pyIntChars s.data

/-- Split a character list at the first `'.'`: digits before, and the
remainder after it when a dot is present. -/
def splitAtDot : List Char → List Char × Option (List Char)
  | [] => ([], none)
  | c :: cs =>
    if c = '.' then ([], some cs)
    else
      let r := splitAtDot cs
      (c :: r.1, r.2)

/-- Unsigned part of Python `float(s)` on the decimal literal forms
`digits`, `digits.digits`, `digits.` and `.digits`. -/
def pyFloatMag (cs : List Char) : Option Rat :=
  match splitAtDot cs with
  | (ip, none) =>
    if !ip.isEmpty && allDigits ip then some ((natVal ip : Rat)) else none
  | (ip, some fp) =>
    if (!ip.isEmpty || !fp.isEmpty) && allDigits ip && allDigits fp then
      some ((natVal ip : Rat) + (natVal fp : Rat) / (10 : Rat) ^ fp.length)
    else none

/-- Model of Python `float(s)` on decimal literals (the only forms the dmon
feed produces): strip, optional sign, then `pyFloatMag`; a failing conversion
raises `ValueError`, modelled as `none`. -/
def pyFloatChars (cs0 : List Char) : Option Rat :=
  match stripChars cs0 with
  | '-' :: rest => (pyFloatMag rest).map fun q => -q
  | '+' :: rest => pyFloatMag rest
  | rest => pyFloatMag rest

/-- Model of Python `float(s)` on a `String`. -/
def pyFloat (s : String) : Option Rat :=
  pyFloatChars s.data

/-! ### Bounded series: `DataPlot` (src/gpumon/_plot.py) and `GPUPlot`
(src/gpumon/__init__.py)

Both widgets store their points in a Python `collections.deque` created with a
`maxlen`: appending to a full deque silently evicts the oldest element.
Timestamps (`datetime.now(self.tz)`) are wall-clock side data and are omitted;
a series is modelled by the list of appended values in append order.
-/

/-- Model of `deque.append` on a deque created with `maxlen`: keep the most
recent `maxlen` elements of `xs ++ [x]`. -/
def dequeAppend (maxlen : Nat) (xs : List Rat) (x : Rat) : List Rat :=
  let ys := xs ++ [x]
  ys.drop (ys.length - maxlen)

/-- Default history size, `DEFAULT_HISTORY = 1000`
(src/gpumon/__init__.py and the `_defaults` module). -/
def DEFAULT_HISTORY : Nat := 1000

/-- Embedding of `DataPlot` (src/gpumon/_plot.py): the deque `maxlen` is
the `history_size` constructor argument; `y_upper_lim` and `value_formatter`
are optional display metadata. -/
structure DataPlot where
  historySize : Nat
  data : List Rat
  yUpperLim : Option Rat
  valueFormatter : Option (Rat → String)

/-- Embedding of `DataPlot.__init__`: `self.data = deque(maxlen=history_size)`
starts empty; formatter and upper limit are taken from the arguments. -/
def DataPlot.init (historySize : Nat) (valueFormatter : Option (Rat → String))
    (yUpperLim : Option Rat) : DataPlot :=
  ⟨historySize, [], yUpperLim, valueFormatter⟩

/-- Embedding of `DataPlot.update_data`: append the value (the drawing and
refresh calls have no effect on the series). -/
def DataPlot.update_data (p : DataPlot) (v : Rat) : DataPlot :=
  { p with data := dequeAppend p.historySize p.data v }

/-- Embedding of the `DataPlot.formatter_is_set` property. -/
def DataPlot.formatter_is_set (p : DataPlot) : Bool :=
  p.valueFormatter.isSome

/-- Embedding of `DataPlot.set_value_formatter`: unconditional assignment. -/
def DataPlot.set_value_formatter (p : DataPlot) (f : Rat → String) : DataPlot :=
  { p with valueFormatter := some f }

/-- Embedding of `DataPlot.set_y_upper_lim`: unconditional assignment. -/
def DataPlot.set_y_upper_lim (p : DataPlot) (u : Rat) : DataPlot :=
  { p with yUpperLim := some u }

/-- The guarded binding pattern used at every call site of
`set_value_formatter` in the source (`poll_memory_percent`,
`_get_gpu_info`): `if not plot.formatter_is_set: plot.set_value_formatter(f)`. -/
def DataPlot.bindFormatterIfUnset (p : DataPlot) (f : Rat → String) : DataPlot :=
  if p.formatter_is_set then p else p.set_value_formatter f

/-- Embedding of `GPUPlot` (src/gpumon/__init__.py): the constructor stores
`history_size` in a field but creates the deque as
`deque(maxlen=DEFAULT_HISTORY)` — the parameter is not used as the capacity. -/
structure GPUPlot where
  historySize : Nat
  data : List Rat
deriving DecidableEq, Repr

/-- Embedding of `GPUPlot.__init__`: note the deque capacity is the constant
`DEFAULT_HISTORY`, not the `history_size` argument. -/
def GPUPlot.init (historySize : Nat) : GPUPlot :=
  ⟨historySize, []⟩

/-- Embedding of `GPUPlot.update_data`: append with capacity
`DEFAULT_HISTORY` (the `maxlen` its deque was created with). -/
def GPUPlot.update_data (p : GPUPlot) (v : Rat) : GPUPlot :=
  { p with data := dequeAppend DEFAULT_HISTORY p.data v }

/-! ### Value formatting (`memory_formatter`, src/gpumon/_plot.py)

The fixed-point f-string formatting of Python, with format specs such as
one space then one decimal, is modelled over rationals: round half-to-even
at the requested number of
decimals, render sign as `"-"` or `" "` (the space flag), and pad the
fractional digits with leading zeros.
-/

/-- Round a rational to the nearest integer, ties to even (the rounding used
by IEEE-754 formatting, hence by the fixed-point formatting of Python). -/
def roundHalfEven (q : Rat) : Int :=
  let f := q.floor
  let r := q - (f : Rat)
  if r < 1/2 then f
  else if 1/2 < r then f + 1
  else if f % 2 = 0 then f else f + 1

/-- Left-pad a string with `'0'` to the given width. -/
def padZeros (width : Nat) (s : String) : String :=
  ⟨List.replicate (width - s.data.length) '0'⟩ ++ s

/-- Digits of `|q|` rounded to `prec` decimal places, as in the fixed-point
formatting of Python (sign handled separately). -/
def fmtFixed (prec : Nat) (q : Rat) : String :=
  let scaled : Int := roundHalfEven (|q| * (10 : Rat) ^ prec)
  let n : Nat := scaled.toNat
  if prec = 0 then Nat.repr n
  else Nat.repr (n / 10 ^ prec) ++ "." ++ padZeros prec (Nat.repr (n % 10 ^ prec))

/-- Model of the Python space-flagged fixed-point format spec: the sign
rendered as a minus or a space, then the fixed decimal rendering. -/
def fmtSpaceSign (prec : Nat) (q : Rat) : String :=
  (if q < 0 then "-" else " ") ++ fmtFixed prec q

/-- Embedding of `memory_formatter` (src/gpumon/_plot.py): builds the closure
that renders a percentage together with the scaled byte count; `1e9`, `1e6`
and `1e3` are the literal thresholds of the source. -/
def memory_formatter (total_bytes : Rat) (normed : Bool) : Rat → String :=
  fun percent =>
    let normed_percent : Rat := if normed then percent else percent / 100
    let unnormed_percent : Rat := if normed then percent * 100 else percent
    let tot_bytes : Rat := total_bytes * normed_percent
    let val : String := fmtSpaceSign 1 unnormed_percent ++ "% -"
    if (1000000000 : Rat) ≤ tot_bytes then
      val ++ fmtSpaceSign 2 (tot_bytes / 1000000000) ++ " GiB"
    else if (1000000 : Rat) ≤ tot_bytes then
      val ++ fmtSpaceSign 2 (tot_bytes / 1000000) ++ " MiB"
    else if (1000 : Rat) ≤ tot_bytes then
      val ++ fmtSpaceSign 2 (tot_bytes / 1000) ++ " KiB"
    else
      val ++ fmtSpaceSign 2 tot_bytes ++ " B"

/-! ### CPU / memory sampler failure policy
(`poll_cpu_percent`, `poll_memory_percent`, src/gpumon/_workers.py)

Both samplers run the same loop: try one sample cycle; on success append to
the plot; on failure increment `retries` and, once `retries >= max_retries`,
log and raise one terminal error.  Neither loop ever assigns `retries = 0`
after a success.  A run is modelled by the list of cycle outcomes
(`true` = the sample succeeded, `false` = the cycle raised).
-/

/-- Failure-tracking state of a sampler worker: the `retries` counter, the
terminal flag (the loop is dead once the terminal error is raised), the number
of terminal errors raised, and the number of successful appends. -/
structure PollState where
  retries : Nat
  failed : Bool
  raisedErrors : Nat
  samples : Nat
deriving DecidableEq, Repr

/-- Embedding of one iteration of the sampler loop body.  On success the plot
is updated and `retries` keeps its value (the source has no reset assignment);
on failure `retries` is incremented and, when it reaches `max_retries`, the
worker raises its single terminal error and stops. -/
def pollStep (maxRetries : Nat) (s : PollState) (cycleOk : Bool) : PollState :=
  if s.failed then s
  else if cycleOk then { s with samples := s.samples + 1 }
  else
    let r := s.retries + 1
    if maxRetries ≤ r then
      { s with retries := r, failed := true, raisedErrors := s.raisedErrors + 1 }
    else { s with retries := r }

/-- A sampler run over a list of cycle outcomes, starting from `retries = 0`. -/
def pollRun (maxRetries : Nat) (cycles : List Bool) : PollState :=
  cycles.foldl (pollStep maxRetries) ⟨0, false, 0, 0⟩

/-! ### The dmon stdout consumer
(`consume_stdout` inside `poll_dmon_stats`, src/gpumon/_workers.py)

Each decoded, stripped line is either a `#` comment (skipped), a well-formed
columnar record — `float(parts[1])`, `int(parts[2])`, `int(parts[4])`,
`int(parts[5])`, all converted before any plot update — or malformed, in
which case only the consecutive-parse-error counter moves and, at 20 and
beyond, a loud warning is logged; the loop never stops on parse errors.
-/

/-- The parse-error threshold, `max_parse_errors = 20` in `consume_stdout`. -/
def maxParseErrors : Nat := 20

/-- State of the dmon stdout consumer: the four plots fed by the worker, the
consecutive parse-error counter, and the number of loud warnings written. -/
structure DmonState where
  powerPlot : DataPlot
  utilPlot : DataPlot
  tempPlot : DataPlot
  memPlot : DataPlot
  parseErrorCount : Nat
  warnings : Nat

/-- Embedding of the conversion tuple of `consume_stdout`: split the decoded
line on whitespace runs, then `float(parts[1])`, `int(parts[2])`,
`int(parts[4])`, `int(parts[5])`; a missing index (`IndexError`) or failed
conversion (`ValueError`) makes the whole tuple fail. -/
def parseDmonLine (decoded : String) : Option (Rat × Int × Int × Int) :=
  let parts := reSplitWs decoded
  match (parts.get? 1).bind pyFloat, (parts.get? 2).bind pyInt,
      (parts.get? 4).bind pyInt, (parts.get? 5).bind pyInt with
  | some pwr, some temp, some util, some mem => some (pwr, temp, util, mem)
  | _, _, _, _ => none

/-- Embedding of one iteration of the `consume_stdout` while-loop for one
received line: decode-and-strip, skip comments, and either update all four
plots and reset the parse-error counter, or count the malformed line and warn
loudly at the threshold. -/
def consumeStep (s : DmonState) (line : String) : DmonState :=
  let decoded := pyStrip line
  if startsWithHash decoded then s
  else
    match parseDmonLine decoded with
    | some (pwr, temp, util, mem) =>
      { s with
        powerPlot := s.powerPlot.update_data pwr
        utilPlot := s.utilPlot.update_data (util : Rat)
        tempPlot := s.tempPlot.update_data (temp : Rat)
        memPlot := s.memPlot.update_data (mem : Rat)
        parseErrorCount := 0 }
    | none =>
      let c := s.parseErrorCount + 1
      { s with
        parseErrorCount := c
        warnings := s.warnings + (if maxParseErrors ≤ c then 1 else 0) }

/-- The consumer applied to a whole list of received lines: the loop has no
exit on parse errors, so every line is processed in order. -/
def consumeLines (s : DmonState) (lines : List String) : DmonState :=
  lines.foldl consumeStep s

/-! ### Managed process session scope exit
(`subprocess_lifespan`, src/gpumon/_workers.py)

The context manager wraps the body in `try/except Exception/finally`: an
`Exception` from the body is logged and re-raised wrapped; task cancellation
(`CancelledError`, not an `Exception`) skips the except clause but, like every
other exit path, runs the `finally` block, which kills and waits on the
process exactly when it has not already exited.
-/

/-- How the body of the `async with` scope finished. -/
inductive BodyOutcome where
  | normal
  | exc
  | cancelled
deriving DecidableEq, Repr

/-- A process handle: `returncode` is `none` while the process is running. -/
structure Process where
  returncode : Option Int
deriving DecidableEq, Repr

/-- Result of leaving the scope: the process state after the `finally` block,
whether `kill()` + `wait()` ran, and whether an error propagates out of the
scope (the wrapped re-raise for body exceptions, the cancellation itself for
cancelled tasks). -/
structure LifespanExit where
  proc : Process
  killed : Bool
  propagates : Bool
deriving DecidableEq, Repr

/-- Embedding of `process.kill()` followed by `await process.wait()`: the
process is reaped, so its return code is set (killed processes report the
negative signal number). -/
def killAndWait (_p : Process) : Process :=
  ⟨some (-9)⟩

/-- Embedding of the exit path of `subprocess_lifespan` given the outcome
of the body and the process state at scope exit: the `finally` block runs on
every path and tears the process down only if it has not exited. -/
def subprocess_lifespan_exit (body : BodyOutcome) (p : Process) : LifespanExit :=
  let propagates := match body with
    | .normal => false
    | .exc => true
    | .cancelled => true
  if p.returncode = none then
    { proc := killAndWait p, killed := true, propagates := propagates }
  else
    { proc := p, killed := false, propagates := propagates }

/-! ### One-shot probe (`subprocess_communicate`, src/gpumon/_workers.py)

The probe opens a session, awaits `proc.communicate()` under
`asyncio.wait_for(..., timeout)`, and then: on `TimeoutError` logs and
returns `None` (the session scope kills the process); on nonzero exit logs
the decoded stderr and returns `None`; otherwise it returns
`stdout.decode(encoding="utf-8").strip()`.  That last decode uses strict
error handling and sits outside every handler, so an invalid-UTF-8 stdout
raises `UnicodeDecodeError` to the caller of the probe.
-/

/-- The raw bytes of a captured stream, abstracted by whether they decode as
UTF-8: `valid s` decodes to `s`, `invalid` makes a strict decode raise. -/
inductive PyBytes where
  | valid (s : String)
  | invalid
deriving DecidableEq, Repr

/-- Model of Python `bytes.decode(encoding="utf-8")` with the default strict
error handling: `none` stands for a raised `UnicodeDecodeError`. -/
def decodeStrict : PyBytes → Option String
  | .valid s => some s
  | .invalid => none

/-- One observed run of the subprocess under the probe: either the bounded wait
expired, or the process finished with an exit code and captured streams. -/
inductive CommRun where
  | timeout
  | done (exitCode : Int) (stdout : PyBytes) (stderr : PyBytes)
deriving DecidableEq, Repr

/-- What the probe call does for its caller: return an optional string, or
let an exception escape the probe boundary. -/
inductive ProbeResult where
  | ret (val : Option String)
  | raised (msg : String)
deriving DecidableEq, Repr

/-- Embedding of `subprocess_communicate`: timeout and nonzero exit are
absorbed into a `None` return; an exit-zero run returns the stripped decoded
stdout, except that a failing strict decode raises past the probe. -/
def subprocess_communicate (run : CommRun) : ProbeResult :=
  match run with
  | .timeout => .ret none
  | .done exitCode stdoutB _ =>
    if exitCode ≠ 0 then .ret none
    else
      match decodeStrict stdoutB with
      | some s => .ret (some (pyStrip s))
      | none => .raised "UnicodeDecodeError"

/-! ### Process-table refresh (`update_process_list`, src/gpumon/_workers.py)

The worker probes with `subprocess_communicate` (so `output` is optional),
clears the table, and either adds the placeholder row — when the output is
falsy or contains the literal `"[Not Supported]"` — or adds one row per
comma-separated line, skipping (with a log line) every line whose field
count is not exactly three.
-/

/-- The placeholder row added when there is no process output. -/
def NO_PROCESSES_ROW : List String := ["[i]No running processes[/i]"]

/-- Embedding of the per-line body `pid, name, memory = line.split(",")`
followed by `add_row(pid.strip(), name.strip(), f"...")`: a field count other
than three raises `ValueError` and yields no row. -/
def parseProcLine (line : String) : Option (List String) :=
  match splitComma line with
  | [pid, name, memory] => some [pyStrip pid, pyStrip name, pyStrip memory ++ " MB"]
  | _ => none

/-- Embedding of the table contents produced by `update_process_list` from
the probe output: `none` models a probe that returned no result (falsy
`output`). -/
def update_process_list (output : Option String) : List (List String) :=
  match output with
  | none => [NO_PROCESSES_ROW]
  | some out =>
    if out.data.isEmpty || containsSub out "[Not Supported]" then [NO_PROCESSES_ROW]
    else (pySplitlines out).filterMap parseProcLine

/-! ## Theorems -/

section
attribute [local semireducible] Rat.add Rat.mul Rat.inv Rat.sub Rat.ofScientific

/-- Folding `dequeAppend maxlen` over appended values keeps exactly the most
recent `maxlen` elements, in append order. -/
lemma foldl_dequeAppend (C : Nat) (vs : List Rat) :
    ∀ acc : List Rat, acc.length ≤ C →
      vs.foldl (dequeAppend C) acc = (acc ++ vs).drop ((acc ++ vs).length - C) := by
  induction vs with
  | nil =>
    intro acc h
    simp [Nat.sub_eq_zero_of_le h]
  | cons x xs ih =>
    intro acc h
    have hd : dequeAppend C acc x = (acc ++ [x]).drop ((acc ++ [x]).length - C) := rfl
    have hk : (acc ++ [x]).length - C ≤ (acc ++ [x]).length := Nat.sub_le _ _
    have hlen : (dequeAppend C acc x).length ≤ C := by
      rw [hd, List.length_drop]
      omega
    have step : (x :: xs).foldl (dequeAppend C) acc
        = xs.foldl (dequeAppend C) (dequeAppend C acc x) := rfl
    rw [step, ih _ hlen, hd, ← List.drop_append_of_le_length hk, List.drop_drop]
    have hshape : (acc ++ [x]) ++ xs = acc ++ x :: xs := by simp
    rw [hshape]
    clear hk hlen step ih hd h
    congr 1
    simp only [List.length_drop, List.length_append, List.length_cons, List.length_nil]
    omega

/-- The operation `update_data` leaves the capacity of a `DataPlot` unchanged and appends
to its deque. -/
lemma DataPlot.foldl_update_data (vs : List Rat) :
    ∀ p : DataPlot,
      (vs.foldl DataPlot.update_data p).historySize = p.historySize ∧
      (vs.foldl DataPlot.update_data p).data
        = vs.foldl (dequeAppend p.historySize) p.data := by
  induction vs with
  | nil => intro p; exact ⟨rfl, rfl⟩
  | cons x xs ih =>
    intro p
    have h := ih (p.update_data x)
    exact ⟨h.1, by rw [List.foldl_cons, List.foldl_cons, h.2]; rfl⟩

/-- C2.  The claim holds for `DataPlot` — a series of capacity `C` retains
exactly the most recent `C` appended values in append order — but `GPUPlot`
is a code bug: its constructor stores `history_size` yet builds the deque
with `maxlen=DEFAULT_HISTORY`, so a `GPUPlot` of declared capacity 2 still
holds 3 points after 3 appends. -/
theorem C2_series_capacity (C : Nat) (vs : List Rat) :
    ((vs.foldl DataPlot.update_data (DataPlot.init C none none)).data
        = vs.drop (vs.length - C)) ∧
    ([(1 : Rat), 2, 3].foldl GPUPlot.update_data (GPUPlot.init 2)).data = [1, 2, 3] ∧
    (GPUPlot.init 2).historySize = 2 := by
  refine ⟨?_, by decide, rfl⟩
  have h := DataPlot.foldl_update_data vs (DataPlot.init C none none)
  rw [h.2]
  simpa using foldl_dequeAppend C vs [] (by simp)

/-- Once a sampler worker has raised its terminal error, no further cycle
changes its state (the loop is dead). -/
lemma pollStep_absorb (m : Nat) (cs : List Bool) :
    ∀ s : PollState, s.failed = true → cs.foldl (pollStep m) s = s := by
  induction cs with
  | nil => intro s _; rfl
  | cons c cs ih =>
    intro s h
    rw [List.foldl_cons]
    have : pollStep m s c = s := by simp [pollStep, h]
    rw [this, ih s h]

/-- Invariant characterisation of the sampler loop: starting unfailed and
below the threshold, the run fails exactly when the lifetime number of failed
cycles reaches the threshold, and the terminal error is raised exactly once
in that case. -/
lemma pollRun_characterise (m : Nat) (cs : List Bool) :
    ∀ s : PollState, 0 < m → s.failed = false → s.retries < m →
      ((cs.foldl (pollStep m) s).failed = true ↔ m ≤ s.retries + cs.count false) ∧
      (cs.foldl (pollStep m) s).raisedErrors
        = s.raisedErrors + (if m ≤ s.retries + cs.count false then 1 else 0) := by
  induction cs with
  | nil =>
    intro s hm hf hr
    have hnot : ¬ m ≤ s.retries + List.count false [] := by
      simp only [List.count_nil]
      omega
    rw [List.foldl_nil]
    refine ⟨?_, by rw [if_neg hnot, Nat.add_zero]⟩
    rw [hf]
    simp only [Bool.false_eq_true, false_iff]
    exact hnot
  | cons c cs ih =>
    intro s hm hf hr
    rw [List.foldl_cons]
    cases c with
    | true =>
      have hstep : pollStep m s true = { s with samples := s.samples + 1 } := by
        simp [pollStep, hf]
      have hcount : List.count false (true :: cs) = cs.count false := by
        simp [List.count_cons]
      rw [hstep, hcount]
      exact ih { s with samples := s.samples + 1 } hm hf hr
    | false =>
      have hcount : List.count false (false :: cs) = cs.count false + 1 := by
        simp [List.count_cons]
      rw [hcount]
      by_cases hthr : m ≤ s.retries + 1
      · have hstep : pollStep m s false
            = ⟨s.retries + 1, true, s.raisedErrors + 1, s.samples⟩ := by
          simp [pollStep, hf, hthr]
        rw [hstep, pollStep_absorb m cs _ rfl]
        have hle : m ≤ s.retries + (cs.count false + 1) := by omega
        exact ⟨by simp [hle], by rw [if_pos hle]⟩
      · have hstep : pollStep m s false
            = ⟨s.retries + 1, false, s.raisedErrors, s.samples⟩ := by
          simp [pollStep, hf, hthr]
        rw [hstep]
        have h := ih ⟨s.retries + 1, false, s.raisedErrors, s.samples⟩ hm rfl
          (show s.retries + 1 < m by omega)
        have e1 : (⟨s.retries + 1, false, s.raisedErrors, s.samples⟩ : PollState).retries
            = s.retries + 1 := rfl
        have e2 : (⟨s.retries + 1, false, s.raisedErrors, s.samples⟩ : PollState).raisedErrors
            = s.raisedErrors := rfl
        rw [e1, e2] at h
        constructor
        · rw [h.1]
          omega
        · rw [h.2]
          by_cases hc : m ≤ s.retries + 1 + cs.count false
          · rw [if_pos hc, if_pos (by omega)]
          · rw [if_neg hc, if_neg (by omega)]

/-- C1 counterexample.  The run fail–success–fail–fail has a successful
cycle before the threshold is reached and never has 3 consecutive failures,
yet with `max_retries = 3` the worker still reaches the terminal `Failed`
state and raises its terminal error: the samplers never reset the counter on
success, so the claimed consecutive-failure semantics is false. -/
theorem C1_counterexample :
    (pollRun 3 [false, true, false, false]).failed = true ∧
    (pollRun 3 [false, true, false, false]).raisedErrors = 1 ∧
    (pollRun 3 [false, true, false, false]).samples = 1 := by
  decide

/-- C1 amended.  The failure counter of the samplers is cumulative over the
worker lifetime — a successful cycle appends to the series but does not
reset it — so with `maxRetries = 3` the worker transitions to the terminal
`Failed` state, raising exactly one terminal error, exactly when its lifetime
total of failed cycles reaches 3, successes in between notwithstanding
(three consecutive failed cycles from a fresh worker do terminate it). -/
theorem C1_cumulative_failure_threshold (cs : List Bool) :
    ((pollRun 3 cs).failed = true ↔ 3 ≤ cs.count false) ∧
    (pollRun 3 cs).raisedErrors = (if 3 ≤ cs.count false then 1 else 0) := by
  have h := pollRun_characterise 3 cs ⟨0, false, 0, 0⟩ (by omega) rfl
    (show (0 : Nat) < 3 by omega)
  simpa [pollRun] using h

/-- A fresh consumer state: four empty default-capacity plots, no parse
errors, no warnings. -/
def dmonState0 : DmonState :=
  ⟨DataPlot.init DEFAULT_HISTORY none none, DataPlot.init DEFAULT_HISTORY none none,
   DataPlot.init DEFAULT_HISTORY none none, DataPlot.init DEFAULT_HISTORY none none,
   0, 0⟩

/-- Like `dmonState0` but with 19 consecutive parse errors already counted,
one short of the loud-warning threshold. -/
def dmonState19 : DmonState :=
  ⟨DataPlot.init DEFAULT_HISTORY none none, DataPlot.init DEFAULT_HISTORY none none,
   DataPlot.init DEFAULT_HISTORY none none, DataPlot.init DEFAULT_HISTORY none none,
   19, 0⟩

/-- C3.  For every non-comment dmon line whose whitespace-separated fields
are numeric at the schema indices, the consumer extracts power as the float
at index 1, temperature as the integer at index 2, utilization as the integer
at index 4 and memory as the integer at index 5 — each equal to the literal
numeric value of that field — appends each to its corresponding series, and
resets the parse-error counter. -/
theorem C3_columnar_extraction (s : DmonState) (line : String) (p : Rat)
    (t u m : Int)
    (hnc : startsWithHash (pyStrip line) = false)
    (h1 : ((reSplitWs (pyStrip line)).get? 1).bind pyFloat = some p)
    (h2 : ((reSplitWs (pyStrip line)).get? 2).bind pyInt = some t)
    (h4 : ((reSplitWs (pyStrip line)).get? 4).bind pyInt = some u)
    (h5 : ((reSplitWs (pyStrip line)).get? 5).bind pyInt = some m) :
    consumeStep s line =
      { s with
        powerPlot := s.powerPlot.update_data p
        utilPlot := s.utilPlot.update_data (u : Rat)
        tempPlot := s.tempPlot.update_data (t : Rat)
        memPlot := s.memPlot.update_data (m : Rat)
        parseErrorCount := 0 } := by
  have hp : parseDmonLine (pyStrip line) = some (p, t, u, m) := by
    simp only [parseDmonLine]
    rw [h1, h2, h4, h5]
  simp [consumeStep, hnc, hp]

/-- C3 witness: the concrete dmon line `"0 25.5 45 3 80 60"` satisfies the
hypotheses and the consumer appends 25.5 W, 45 °C, 80 % and 60 % to the four
series. -/
theorem C3_columnar_extraction_witness :
    startsWithHash (pyStrip "0 25.5 45 3 80 60") = false ∧
    ((reSplitWs (pyStrip "0 25.5 45 3 80 60")).get? 1).bind pyFloat = some (51/2) ∧
    ((reSplitWs (pyStrip "0 25.5 45 3 80 60")).get? 2).bind pyInt = some 45 ∧
    ((reSplitWs (pyStrip "0 25.5 45 3 80 60")).get? 4).bind pyInt = some 80 ∧
    ((reSplitWs (pyStrip "0 25.5 45 3 80 60")).get? 5).bind pyInt = some 60 ∧
    consumeStep dmonState0 "0 25.5 45 3 80 60" =
      { dmonState0 with
        powerPlot := dmonState0.powerPlot.update_data (51/2)
        utilPlot := dmonState0.utilPlot.update_data ((80 : Int) : Rat)
        tempPlot := dmonState0.tempPlot.update_data ((45 : Int) : Rat)
        memPlot := dmonState0.memPlot.update_data ((60 : Int) : Rat)
        parseErrorCount := 0 } :=
  ⟨by decide, by decide, by decide, by decide, by decide,
   C3_columnar_extraction dmonState0 "0 25.5 45 3 80 60" (51/2) 45 80 60
     (by decide) (by decide) (by decide) (by decide) (by decide)⟩

/-- C8.  A malformed non-comment dmon line (missing index or failed numeric
conversion) increments only the consecutive-parse-failure counter: none of
the four series changes, at counter values of 20 and above the consumer logs
one loud warning per malformed line, and the loop keeps consuming the
remaining lines; the counter returns to 0 on the next successfully parsed
line.  The streaming worker has no cycle-failure counter at all, so nothing
but the parse counter moves. -/
theorem C8_malformed_line_policy (s : DmonState) (line : String) :
    (startsWithHash (pyStrip line) = false → parseDmonLine (pyStrip line) = none →
      (consumeStep s line).parseErrorCount = s.parseErrorCount + 1 ∧
      (consumeStep s line).powerPlot = s.powerPlot ∧
      (consumeStep s line).utilPlot = s.utilPlot ∧
      (consumeStep s line).tempPlot = s.tempPlot ∧
      (consumeStep s line).memPlot = s.memPlot ∧
      (consumeStep s line).warnings
        = s.warnings + (if maxParseErrors ≤ s.parseErrorCount + 1 then 1 else 0) ∧
      (∀ rest : List String,
        consumeLines s (line :: rest) = consumeLines (consumeStep s line) rest)) ∧
    (∀ r, parseDmonLine (pyStrip line) = some r →
      startsWithHash (pyStrip line) = false →
      (consumeStep s line).parseErrorCount = 0) := by
  constructor
  · intro hnc hbad
    refine ⟨?_, ?_, ?_, ?_, ?_, ?_, fun rest => rfl⟩ <;> simp [consumeStep, hnc, hbad]
  · intro r hr hnc
    obtain ⟨p, t, u, m⟩ := r
    simp [consumeStep, hnc, hr]

/-- C8 witness: starting from 19 consecutive parse errors, the malformed
line `"gpu pwr gtemp"` leaves all four plots untouched, brings the counter to
the threshold 20, logs exactly one loud warning, and the consumer keeps
running — and the next well-formed line resets the counter to 0. -/
theorem C8_malformed_line_policy_witness :
    (consumeStep dmonState19 "gpu pwr gtemp").parseErrorCount = 19 + 1 ∧
    (consumeStep dmonState19 "gpu pwr gtemp").powerPlot = dmonState19.powerPlot ∧
    (consumeStep dmonState19 "gpu pwr gtemp").utilPlot = dmonState19.utilPlot ∧
    (consumeStep dmonState19 "gpu pwr gtemp").tempPlot = dmonState19.tempPlot ∧
    (consumeStep dmonState19 "gpu pwr gtemp").memPlot = dmonState19.memPlot ∧
    (consumeStep dmonState19 "gpu pwr gtemp").warnings = dmonState19.warnings + 1 ∧
    consumeLines dmonState19 ["gpu pwr gtemp", "0 25.5 45 3 80 60"]
      = consumeLines (consumeStep dmonState19 "gpu pwr gtemp") ["0 25.5 45 3 80 60"] ∧
    (consumeStep (consumeStep dmonState19 "gpu pwr gtemp")
        "0 25.5 45 3 80 60").parseErrorCount = 0 := by
  have h := (C8_malformed_line_policy dmonState19 "gpu pwr gtemp").1
    (by decide) (by decide)
  have hreset := (C8_malformed_line_policy
      (consumeStep dmonState19 "gpu pwr gtemp") "0 25.5 45 3 80 60").2
    ((51 : Rat)/2, 45, 80, 60) (by decide) (by decide)
  have hwarn : (if maxParseErrors ≤ dmonState19.parseErrorCount + 1 then 1 else 0) = 1 := by
    decide
  refine ⟨h.1, h.2.1, h.2.2.1, h.2.2.2.1, h.2.2.2.2.1, ?_, h.2.2.2.2.2.2 _, hreset⟩
  rw [h.2.2.2.2.2.1, hwarn]

/-- C10.  Per dmon line the four series updates are all-or-nothing: either
the line leaves every one of the four plots unchanged (comment or malformed
line), or the conversion tuple succeeded and every one of the four plots
receives exactly its value from that line; a partial update is impossible. -/
theorem C10_all_or_nothing (s : DmonState) (line : String) :
    ((consumeStep s line).powerPlot = s.powerPlot ∧
     (consumeStep s line).utilPlot = s.utilPlot ∧
     (consumeStep s line).tempPlot = s.tempPlot ∧
     (consumeStep s line).memPlot = s.memPlot) ∨
    (∃ p t u m, parseDmonLine (pyStrip line) = some (p, t, u, m) ∧
      (consumeStep s line).powerPlot = s.powerPlot.update_data p ∧
      (consumeStep s line).utilPlot = s.utilPlot.update_data (u : Rat) ∧
      (consumeStep s line).tempPlot = s.tempPlot.update_data (t : Rat) ∧
      (consumeStep s line).memPlot = s.memPlot.update_data (m : Rat)) := by
  by_cases hc : startsWithHash (pyStrip line) = true
  · left
    refine ⟨?_, ?_, ?_, ?_⟩ <;> simp [consumeStep, hc]
  · have hc' : startsWithHash (pyStrip line) = false := by
      simpa using hc
    cases hp : parseDmonLine (pyStrip line) with
    | none =>
      left
      refine ⟨?_, ?_, ?_, ?_⟩ <;> simp [consumeStep, hc', hp]
    | some r =>
      right
      obtain ⟨p, t, u, m⟩ := r
      refine ⟨p, t, u, m, rfl, ?_, ?_, ?_, ?_⟩ <;> simp [consumeStep, hc', hp]

/-- C4.  On every exit path of the session scope — normal completion, an
exception from the body, or cancellation of the enclosing task — the wrapped
process has exited by the time the scope returns: the `finally` block kills
and reaps it exactly when it is still running, and when the process has
already exited the teardown does nothing. -/
theorem C4_lifespan_teardown (body : BodyOutcome) (p : Process) :
    (subprocess_lifespan_exit body p).proc.returncode.isSome = true ∧
    (subprocess_lifespan_exit body p).killed = p.returncode.isNone ∧
    (p.returncode.isSome = true →
      (subprocess_lifespan_exit body p).proc = p ∧
      (subprocess_lifespan_exit body p).killed = false) := by
  cases p with
  | mk rc =>
    cases rc with
    | none => simp [subprocess_lifespan_exit, killAndWait]
    | some c => simp [subprocess_lifespan_exit]

/-- C4 witness: cancelling the scope around an already-exited process leaves
the process untouched (idempotent close) while the exit invariant holds. -/
theorem C4_lifespan_teardown_witness :
    (subprocess_lifespan_exit BodyOutcome.cancelled ⟨some 0⟩).proc.returncode.isSome
        = true ∧
    (subprocess_lifespan_exit BodyOutcome.cancelled ⟨some 0⟩).proc = ⟨some 0⟩ ∧
    (subprocess_lifespan_exit BodyOutcome.cancelled ⟨some 0⟩).killed = false := by
  have h := C4_lifespan_teardown BodyOutcome.cancelled ⟨some 0⟩
  exact ⟨h.1, (h.2.2 (by decide)).1, (h.2.2 (by decide)).2⟩

/-- C5 counterexample.  The bind operations themselves are not first-writer
no-ops: a second `set_y_upper_lim` with a different value replaces the first
bound value, and a second `set_value_formatter` with a different formatter
replaces the first, refuting the claimed idempotent-first-writer policy of
the setters. -/
theorem C5_counterexample :
    ((((DataPlot.init 1000 none none).set_y_upper_lim 10).set_y_upper_lim 20).yUpperLim
        = some 20) ∧
    (some (20 : Rat) ≠ some (10 : Rat)) ∧
    ((((DataPlot.init 1000 none none).set_value_formatter fun _ => "first").set_value_formatter
        fun _ => "second").valueFormatter.map (fun f => f 0) = some "second") ∧
    (some ("second" : String) ≠ some ("first" : String)) :=
  ⟨rfl, by decide, rfl, by decide⟩

/-- C5 amended.  The setters overwrite unconditionally (last writer wins);
first-writer idempotence holds only for the formatter, because every call
site guards the bind with `formatter_is_set`: that guarded bind is an
idempotent first-writer operation, while the upper-bound setter has no guard
and a second call with a different value replaces the first. -/
theorem C5_first_writer_semantics (p : DataPlot) (f g : Rat → String) (a b : Rat) :
    (p.bindFormatterIfUnset f).bindFormatterIfUnset g = p.bindFormatterIfUnset f ∧
    (p.set_value_formatter f).set_value_formatter g = p.set_value_formatter g ∧
    (p.set_y_upper_lim a).set_y_upper_lim b = p.set_y_upper_lim b := by
  refine ⟨?_, rfl, rfl⟩
  cases hvf : p.valueFormatter with
  | some f0 =>
    have h1 : p.formatter_is_set = true := by
      simp [DataPlot.formatter_is_set, hvf]
    simp [DataPlot.bindFormatterIfUnset, h1]
  | none =>
    have h1 : p.formatter_is_set = false := by
      simp [DataPlot.formatter_is_set, hvf]
    have h2 : (p.set_value_formatter f).formatter_is_set = true := by
      simp [DataPlot.formatter_is_set, DataPlot.set_value_formatter]
    simp [DataPlot.bindFormatterIfUnset, h1, h2]

/-- C6.  The memory formatter built for 16 GB total applied to 50.0 percent
renders exactly the claimed string, and the unit is chosen from the scaled
byte count — at least 1e9 gives GiB (including the boundary), at least 1e6
gives MiB, at least 1e3 gives KiB, and below that plain bytes — with the
percentage at one decimal and the scaled value at two. -/
theorem C6_memory_formatter_units :
    memory_formatter 16000000000 false 50 = " 50.0% - 8.00 GiB" ∧
    memory_formatter 2000000000 false 50 = " 50.0% - 1.00 GiB" ∧
    memory_formatter 16000000000 false (1/100) = " 0.0% - 1.60 MiB" ∧
    memory_formatter 16000000000 false (1/32000) = " 0.0% - 5.00 KiB" ∧
    memory_formatter 500 false 50 = " 50.0% - 250.00 B" :=
  ⟨by decide, by decide, by decide, by decide, by decide⟩

/-- C7.  Parsing `"1234, proc-a, 512\n7,proc-b,64"` yields exactly the two
rows `("1234","proc-a","512 MB")` and `("7","proc-b","64 MB")` in input
order; a line whose comma-split field count is not three is skipped without
affecting the other rows; and output containing the `"[Not Supported]"`
sentinel yields the single placeholder row. -/
theorem C7_process_list_parsing :
    update_process_list (some "1234, proc-a, 512\n7,proc-b,64")
      = [["1234", "proc-a", "512 MB"], ["7", "proc-b", "64 MB"]] ∧
    update_process_list (some "1234, proc-a, 512\nbad,line\n7,proc-b,64")
      = [["1234", "proc-a", "512 MB"], ["7", "proc-b", "64 MB"]] ∧
    update_process_list (some "[Not Supported]") = [NO_PROCESSES_ROW] ∧
    (∀ line : String, (splitComma line).length ≠ 3 → parseProcLine line = none) := by
  refine ⟨by decide, by decide, by decide, ?_⟩
  intro line h
  unfold parseProcLine
  rcases hsc : splitComma line with _ | ⟨a, _ | ⟨b, _ | ⟨c, _ | ⟨d, t⟩⟩⟩⟩
  · rfl
  · rfl
  · rfl
  · rw [hsc] at h
    simp at h
  · rfl

/-- C7 witness: the two-field line `"proc-a,512"` is skipped. -/
theorem C7_process_list_parsing_witness :
    (splitComma "proc-a,512").length ≠ 3 ∧ parseProcLine "proc-a,512" = none :=
  ⟨by decide, C7_process_list_parsing.2.2.2 "proc-a,512" (by decide)⟩

/-- C9 counterexample.  A probe whose process exits 0 but whose stdout is not
valid UTF-8 raises `UnicodeDecodeError` past the probe boundary instead of
returning no result, refuting the claim that no probe failure — including a
decode failure — raises to the caller. -/
theorem C9_counterexample :
    subprocess_communicate (CommRun.done 0 PyBytes.invalid (PyBytes.valid ""))
      = ProbeResult.raised "UnicodeDecodeError" ∧
    ProbeResult.raised "UnicodeDecodeError" ≠ ProbeResult.ret none :=
  ⟨rfl, by decide⟩

/-- C9 amended.  The probe returns the decoded, stripped stdout iff the
process exits 0 within the bounded timeout and its stdout decodes as UTF-8;
timeout and nonzero exit are logged and return no result without raising,
but a stdout decode failure raises past the probe boundary to the caller. -/
theorem C9_probe_contract (c : Int) (o e : PyBytes) :
    subprocess_communicate CommRun.timeout = ProbeResult.ret none ∧
    (c ≠ 0 → subprocess_communicate (CommRun.done c o e) = ProbeResult.ret none) ∧
    (∀ raw, decodeStrict o = some raw →
      subprocess_communicate (CommRun.done 0 o e)
        = ProbeResult.ret (some (pyStrip raw))) ∧
    (decodeStrict o = none →
      subprocess_communicate (CommRun.done 0 o e)
        = ProbeResult.raised "UnicodeDecodeError") := by
  refine ⟨rfl, ?_, ?_, ?_⟩
  · intro hc
    simp [subprocess_communicate, hc]
  · intro raw hr
    simp [subprocess_communicate, hr]
  · intro hr
    simp [subprocess_communicate, hr]

/-- C9 witness: one concrete run per probe outcome — timeout, nonzero exit,
clean exit with decodable stdout, and clean exit with undecodable stdout. -/
theorem C9_probe_contract_witness :
    subprocess_communicate CommRun.timeout = ProbeResult.ret none ∧
    subprocess_communicate (CommRun.done 1 (PyBytes.valid "x") (PyBytes.valid "err"))
      = ProbeResult.ret none ∧
    subprocess_communicate (CommRun.done 0 (PyBytes.valid "  out \n") (PyBytes.valid ""))
      = ProbeResult.ret (some (pyStrip "  out \n")) ∧
    subprocess_communicate (CommRun.done 0 PyBytes.invalid (PyBytes.valid ""))
      = ProbeResult.raised "UnicodeDecodeError" := by
  have h1 := C9_probe_contract 1 (PyBytes.valid "x") (PyBytes.valid "err")
  have h0 := C9_probe_contract 0 (PyBytes.valid "  out \n") (PyBytes.valid "")
  have hi := C9_probe_contract 0 PyBytes.invalid (PyBytes.valid "")
  exact ⟨h1.1, h1.2.1 (by decide), h0.2.2.1 "  out \n" rfl, hi.2.2.2 rfl⟩

end
